import Mathlib

/-!
Verification of the Vocal-Bridge medical sentence composition engine
(backend/main.py): category tables, word categorizer, deduplicator/limiter,
both sentence composers, and the HTTP response assembly for /process-words.

The grammar-correction model is external; it is modelled as an opaque
function parameter `correct : String → String` passed to every definition
that may invoke it.
-/

/-- `SYMPTOM_WORDS` from backend/main.py line 38. -/
def SYMPTOM_WORDS : List String :=
  ["pain", "headache", "fever", "nausea", "dizzy", "tired", "cough", "cold",
   "flu", "throat", "chest", "breathing", "stomach", "back", "knee",
   "shoulder", "hurt", "sick", "bad", "worse"]

/-- `TREATMENT_WORDS` from backend/main.py line 39. -/
def TREATMENT_WORDS : List String :=
  ["medication", "treatment", "surgery", "prescription", "recovery",
   "medicine", "help", "better"]

/-- `MEDICAL_PERSONNEL` from backend/main.py line 40. -/
def MEDICAL_PERSONNEL : List String :=
  ["doctor", "nurse", "hospital", "emergency"]

/-- `BODY_PARTS` from backend/main.py line 41. -/
def BODY_PARTS : List String :=
  ["heart", "lungs", "throat", "blood", "pressure", "head", "body"]

/-- `ACTION_WORDS` from backend/main.py line 42. -/
def ACTION_WORDS : List String :=
  ["need", "want", "go", "get", "make", "cannot", "sleep", "wake", "work",
   "move", "walk", "swallow", "spin"]

/-- `TIME_WORDS` from backend/main.py line 43. -/
def TIME_WORDS : List String :=
  ["yesterday", "today", "morning", "night", "week", "now", "start",
   "continue"]

/-- `SEVERITY_WORDS` from backend/main.py line 44. -/
def SEVERITY_WORDS : List String :=
  ["very", "too", "much", "high", "hard", "urgent"]

/-- `LOCATION_WORDS` from backend/main.py line 45. -/
def LOCATION_WORDS : List String :=
  ["pharmacy", "hospital", "emergency", "room"]

/-- The eight category buckets returned by `categorize_words`
(the 8-tuple of lists in backend/main.py line 76). -/
structure CategorizedWords where
  symptoms : List String
  treatments : List String
  personnel : List String
  body_parts : List String
  actions : List String
  time_words : List String
  severity : List String
  locations : List String
deriving Repr, DecidableEq

/-- The all-empty buckets (state before the categorizer loop). -/
def CategorizedWords.empty : CategorizedWords :=
  ⟨[], [], [], [], [], [], [], []⟩

/-- `categorize_words` from backend/main.py lines 47-76: for each word the
elif-chain appends it to the first category whose set contains it; a word in
no set is dropped.  The loop appends at the back of each bucket; here the
head of the input is consed onto the buckets of the recursively processed
tail, which yields the same input-order buckets. -/
def categorize_words : List String → CategorizedWords
  | [] => CategorizedWords.empty
  | w :: ws =>
    let c := categorize_words ws
    if SYMPTOM_WORDS.contains w then { c with symptoms := w :: c.symptoms }
    else if TREATMENT_WORDS.contains w then { c with treatments := w :: c.treatments }
    else if MEDICAL_PERSONNEL.contains w then { c with personnel := w :: c.personnel }
    else if BODY_PARTS.contains w then { c with body_parts := w :: c.body_parts }
    else if ACTION_WORDS.contains w then { c with actions := w :: c.actions }
    else if TIME_WORDS.contains w then { c with time_words := w :: c.time_words }
    else if SEVERITY_WORDS.contains w then { c with severity := w :: c.severity }
    else if LOCATION_WORDS.contains w then { c with locations := w :: c.locations }
    else c

/-- One pass over the input, skipping tokens already seen: the semantics of
Python's `dict.fromkeys` (first-occurrence-order deduplication). -/
def dedupAux (seen : List String) : List String → List String
  | [] => []
  | w :: ws =>
    if w ∈ seen then dedupAux seen ws
    else w :: dedupAux (w :: seen) ws

/-- `list(dict.fromkeys(words))`: first-occurrence-order deduplication
(backend/main.py lines 84, 142, 207). -/
def fromKeys (ws : List String) : List String := dedupAux [] ws

/-- `list(dict.fromkeys(words))[:7]`: the Deduplicator/Limiter used by both
composers (backend/main.py lines 84 and 142). -/
def uniqueWords (ws : List String) : List String := (fromKeys ws).take 7

/-- Python's `', '.join(l)`. -/
def joinComma (l : List String) : String := String.intercalate ", " l

/-- `create_medical_sentence` from backend/main.py lines 78-104 (free-text
composer).  `correct` is the grammar-correction client, called only in the
fallback branch.  `personnel[0]` is guarded by nonemptiness in the source,
so it is rendered with `headD`. -/
def create_medical_sentence (correct : String → String) (words : List String) : String :=
  if words.isEmpty then "No medical signs detected"
  else
    let uw := uniqueWords words
    let c := categorize_words uw
    if !c.symptoms.isEmpty && !c.treatments.isEmpty then
      "I have " ++ joinComma (c.symptoms.take 3) ++ " and need " ++ joinComma (c.treatments.take 2)
    else if !c.symptoms.isEmpty && !c.personnel.isEmpty then
      "I have " ++ joinComma (c.symptoms.take 3) ++ " and need to see a " ++ c.personnel.headD ""
    else if !c.symptoms.isEmpty && !c.body_parts.isEmpty then
      "I have " ++ joinComma (c.symptoms.take 2) ++ " in my " ++ joinComma (c.body_parts.take 2)
    else if !c.symptoms.isEmpty then
      "I am experiencing " ++ joinComma (c.symptoms.take 4)
    else if !c.treatments.isEmpty then
      "I need " ++ joinComma (c.treatments.take 3)
    else if !c.personnel.isEmpty then
      "I need to see a " ++ c.personnel.headD ""
    else
      correct (String.intercalate " " uw)

/-- `process_structured_words` from backend/main.py lines 136-184 (structured
composer).  The Python rule-2 block (`if len==3 and need and pain:` with an
inner `if medication/medicine / elif locations` and fall-through when neither
inner branch fires) is flattened into the first two arms of the chain, which
is control-flow equivalent. -/
def process_structured_words (correct : String → String)
    (words : List String) (context : String) : String :=
  if words.isEmpty then "No medical signs detected"
  else
    let uw := uniqueWords words
    let c := categorize_words uw
    let g2 := uw.length == 3 && c.actions.contains "need" && c.symptoms.contains "pain"
    let med := c.treatments.contains "medication" || c.treatments.contains "medicine"
    if g2 && med then
      "I need medication for pain"
    else if g2 && !c.locations.isEmpty then
      "I need medication from " ++ c.locations.headD "" ++ " for pain"
    else if c.actions.contains "need" && med && !c.locations.isEmpty then
      "I need medication from " ++ c.locations.headD ""
    else if !c.actions.isEmpty && !c.symptoms.isEmpty && !c.personnel.isEmpty then
      "I " ++ c.actions.headD "" ++ " help for " ++ joinComma (c.symptoms.take 2)
        ++ " and " ++ c.actions.headD "" ++ " to see a " ++ c.personnel.headD ""
    else if !c.actions.isEmpty && !c.symptoms.isEmpty && !c.treatments.isEmpty then
      "I " ++ c.actions.headD "" ++ " " ++ joinComma (c.treatments.take 2)
        ++ " for " ++ joinComma (c.symptoms.take 2)
    else if !c.symptoms.isEmpty && !c.treatments.isEmpty && !c.personnel.isEmpty then
      "I have " ++ joinComma (c.symptoms.take 2) ++ " and need "
        ++ joinComma (c.treatments.take 1) ++ " from a " ++ c.personnel.headD ""
    else if !c.symptoms.isEmpty && !c.treatments.isEmpty then
      "I have " ++ joinComma (c.symptoms.take 3) ++ " and need " ++ joinComma (c.treatments.take 2)
    else if !c.symptoms.isEmpty && !c.personnel.isEmpty then
      "I have " ++ joinComma (c.symptoms.take 3) ++ " and need to see a " ++ c.personnel.headD ""
    else if !c.symptoms.isEmpty && !c.body_parts.isEmpty then
      "I have " ++ joinComma (c.symptoms.take 2) ++ " in my " ++ joinComma (c.body_parts.take 2)
    else if !c.actions.isEmpty && !c.symptoms.isEmpty then
      "I " ++ c.actions.headD "" ++ " help for " ++ joinComma (c.symptoms.take 3)
    else if !c.actions.isEmpty && !c.treatments.isEmpty then
      "I " ++ c.actions.headD "" ++ " " ++ joinComma (c.treatments.take 3)
    else if !c.symptoms.isEmpty then
      "I am experiencing " ++ joinComma (c.symptoms.take 4)
    else if !c.treatments.isEmpty then
      "I need " ++ joinComma (c.treatments.take 3)
    else if !c.personnel.isEmpty then
      "I need to see a " ++ c.personnel.headD ""
    else
      correct (String.intercalate " " uw)

/-- Python's `str.lower()`: lowercase every character. -/
def pyLower (s : String) : String := ⟨s.data.map Char.toLower⟩

/-- Helper for `pySplit`: scan the characters, accumulating the current
(reversed) word, emitting it at each whitespace run boundary. -/
def splitWsAux (cur : List Char) : List Char → List String
  | [] => if cur.isEmpty then [] else [⟨cur.reverse⟩]
  | ch :: cs =>
    if ch.isWhitespace then
      if cur.isEmpty then splitWsAux [] cs
      else (⟨cur.reverse⟩ : String) :: splitWsAux [] cs
    else splitWsAux (ch :: cur) cs

/-- Python's argumentless `str.split()`: split on whitespace runs, with no
empty fragments. -/
def pySplit (s : String) : List String := splitWsAux [] s.data

/-- `beautify_sentence` from backend/main.py lines 121-134: lowercase and
split the text, compose the medical sentence, and apply a second
grammar-correction pass only when the original (pre-dedup) token count
exceeds 3. -/
def beautify_sentence (correct : String → String) (text : String) : String :=
  let words := pySplit (pyLower text)
  let medical_sentence := create_medical_sentence correct words
  if words.length ≤ 3 then medical_sentence
  else correct medical_sentence

/-- The JSON body returned by the `POST /process-words` route
(backend/main.py lines 202-208). -/
structure ProcessWordsResponse where
  input_words : List String
  context : String
  beautified : String
  word_count : Nat
  unique_words : List String
deriving Repr, DecidableEq

/-- `process_words` route handler from backend/main.py lines 198-208.  Note
that its `unique_words` field is `list(dict.fromkeys(words))` with no `[:7]`
truncation. -/
def process_words (correct : String → String)
    (words : List String) (context : String) : ProcessWordsResponse :=
  { input_words := words
    context := context
    beautified := process_structured_words correct words context
    word_count := words.length
    unique_words := fromKeys words }

theorem categorize_symptoms_eq (ws : List String) :
    (categorize_words ws).symptoms = ws.filter fun w => SYMPTOM_WORDS.contains w := by
  induction ws with
  | nil => rfl
  | cons w ws ih =>
    simp only [categorize_words, List.filter_cons]
    repeat' split
    all_goals simp_all

theorem categorize_treatments_eq (ws : List String) :
    (categorize_words ws).treatments = ws.filter fun w =>
      !SYMPTOM_WORDS.contains w && TREATMENT_WORDS.contains w := by
  induction ws with
  | nil => rfl
  | cons w ws ih =>
    simp only [categorize_words, List.filter_cons]
    repeat' split
    all_goals simp_all

theorem categorize_personnel_eq (ws : List String) :
    (categorize_words ws).personnel = ws.filter fun w =>
      !SYMPTOM_WORDS.contains w && !TREATMENT_WORDS.contains w &&
      MEDICAL_PERSONNEL.contains w := by
  induction ws with
  | nil => rfl
  | cons w ws ih =>
    simp only [categorize_words, List.filter_cons]
    repeat' split
    all_goals simp_all

theorem categorize_body_parts_eq (ws : List String) :
    (categorize_words ws).body_parts = ws.filter fun w =>
      !SYMPTOM_WORDS.contains w && !TREATMENT_WORDS.contains w &&
      !MEDICAL_PERSONNEL.contains w && BODY_PARTS.contains w := by
  induction ws with
  | nil => rfl
  | cons w ws ih =>
    simp only [categorize_words, List.filter_cons]
    repeat' split
    all_goals simp_all

theorem categorize_actions_eq (ws : List String) :
    (categorize_words ws).actions = ws.filter fun w =>
      !SYMPTOM_WORDS.contains w && !TREATMENT_WORDS.contains w &&
      !MEDICAL_PERSONNEL.contains w && !BODY_PARTS.contains w &&
      ACTION_WORDS.contains w := by
  induction ws with
  | nil => rfl
  | cons w ws ih =>
    simp only [categorize_words, List.filter_cons]
    repeat' split
    all_goals simp_all

theorem categorize_time_words_eq (ws : List String) :
    (categorize_words ws).time_words = ws.filter fun w =>
      !SYMPTOM_WORDS.contains w && !TREATMENT_WORDS.contains w &&
      !MEDICAL_PERSONNEL.contains w && !BODY_PARTS.contains w &&
      !ACTION_WORDS.contains w && TIME_WORDS.contains w := by
  induction ws with
  | nil => rfl
  | cons w ws ih =>
    simp only [categorize_words, List.filter_cons]
    repeat' split
    all_goals simp_all

theorem categorize_severity_eq (ws : List String) :
    (categorize_words ws).severity = ws.filter fun w =>
      !SYMPTOM_WORDS.contains w && !TREATMENT_WORDS.contains w &&
      !MEDICAL_PERSONNEL.contains w && !BODY_PARTS.contains w &&
      !ACTION_WORDS.contains w && !TIME_WORDS.contains w &&
      SEVERITY_WORDS.contains w := by
  induction ws with
  | nil => rfl
  | cons w ws ih =>
    simp only [categorize_words, List.filter_cons]
    repeat' split
    all_goals simp_all

theorem categorize_locations_eq (ws : List String) :
    (categorize_words ws).locations = ws.filter fun w =>
      !SYMPTOM_WORDS.contains w && !TREATMENT_WORDS.contains w &&
      !MEDICAL_PERSONNEL.contains w && !BODY_PARTS.contains w &&
      !ACTION_WORDS.contains w && !TIME_WORDS.contains w &&
      !SEVERITY_WORDS.contains w && LOCATION_WORDS.contains w := by
  induction ws with
  | nil => rfl
  | cons w ws ih =>
    simp only [categorize_words, List.filter_cons]
    repeat' split
    all_goals simp_all

theorem mem_dedupAux {x : String} :
    ∀ (ws seen : List String), (x ∈ dedupAux seen ws ↔ x ∈ ws ∧ x ∉ seen) := by
  intro ws
  induction ws with
  | nil => intro seen; simp [dedupAux]
  | cons w ws ih =>
    intro seen
    simp only [dedupAux]
    split
    · next hw =>
      simp only [List.mem_cons, ih seen]
      constructor
      · rintro ⟨h1, h2⟩; exact ⟨Or.inr h1, h2⟩
      · rintro ⟨h1 | h1, h2⟩
        · exact absurd (h1 ▸ hw) h2
        · exact ⟨h1, h2⟩
    · next hw =>
      simp only [List.mem_cons, ih (w :: seen)]
      constructor
      · rintro (rfl | ⟨h1, h2⟩)
        · exact ⟨Or.inl rfl, hw⟩
        · exact ⟨Or.inr h1, fun hs => h2 (Or.inr hs)⟩
      · rintro ⟨rfl | h1, h2⟩
        · exact Or.inl rfl
        · by_cases hxw : x = w
          · exact Or.inl hxw
          · exact Or.inr ⟨h1, fun hs => hs.elim hxw h2⟩

theorem dedupAux_nodup : ∀ (ws seen : List String), (dedupAux seen ws).Nodup := by
  intro ws
  induction ws with
  | nil => intro seen; simp [dedupAux]
  | cons w ws ih =>
    intro seen
    simp only [dedupAux]
    split
    · exact ih seen
    · refine List.nodup_cons.mpr ⟨fun hmem => ?_, ih (w :: seen)⟩
      exact ((mem_dedupAux ws (w :: seen)).mp hmem).2 (List.mem_cons_self w seen)

theorem dedupAux_sublist : ∀ (ws seen : List String), (dedupAux seen ws).Sublist ws := by
  intro ws
  induction ws with
  | nil => intro seen; simp [dedupAux]
  | cons w ws ih =>
    intro seen
    simp only [dedupAux]
    split
    · exact List.Sublist.cons w (ih seen)
    · exact List.Sublist.cons₂ w (ih (w :: seen))

theorem dedupAux_pairwise_indexOf :
    ∀ (ws seen : List String),
      List.Pairwise (fun a b => ws.indexOf a < ws.indexOf b) (dedupAux seen ws) := by
  intro ws
  induction ws with
  | nil => intro seen; simp [dedupAux]
  | cons w ws ih =>
    intro seen
    simp only [dedupAux]
    split
    · next hw =>
      refine List.Pairwise.imp_of_mem ?_ (ih seen)
      intro a b ha hb hab
      have haw : a ≠ w := fun h => ((mem_dedupAux ws seen).mp ha).2 (h ▸ hw)
      have hbw : b ≠ w := fun h => ((mem_dedupAux ws seen).mp hb).2 (h ▸ hw)
      rw [List.indexOf_cons_ne ws haw.symm, List.indexOf_cons_ne ws hbw.symm]
      exact Nat.succ_lt_succ hab
    · next hw =>
      rw [List.pairwise_cons]
      constructor
      · intro b hb
        have hbw : b ≠ w := fun h =>
          ((mem_dedupAux ws (w :: seen)).mp hb).2 (h ▸ List.mem_cons_self w seen)
        rw [List.indexOf_cons_self, List.indexOf_cons_ne ws hbw.symm]
        exact Nat.succ_pos _
      · refine List.Pairwise.imp_of_mem ?_ (ih (w :: seen))
        intro a b ha hb hab
        have haw : a ≠ w := fun h =>
          ((mem_dedupAux ws (w :: seen)).mp ha).2 (h ▸ List.mem_cons_self w seen)
        have hbw : b ≠ w := fun h =>
          ((mem_dedupAux ws (w :: seen)).mp hb).2 (h ▸ List.mem_cons_self w seen)
        rw [List.indexOf_cons_ne ws haw.symm, List.indexOf_cons_ne ws hbw.symm]
        exact Nat.succ_lt_succ hab

theorem dedupAux_congr :
    ∀ (ws seen1 seen2 : List String), (∀ y ∈ ws, (y ∈ seen1 ↔ y ∈ seen2)) →
      dedupAux seen1 ws = dedupAux seen2 ws := by
  intro ws
  induction ws with
  | nil => intro seen1 seen2 _; rfl
  | cons w ws ih =>
    intro seen1 seen2 h
    simp only [dedupAux]
    by_cases hw : w ∈ seen1
    · rw [if_pos hw, if_pos ((h w (List.mem_cons_self w ws)).mp hw)]
      exact ih seen1 seen2 (fun y hy => h y (List.mem_cons_of_mem w hy))
    · rw [if_neg hw, if_neg (fun h2 => hw ((h w (List.mem_cons_self w ws)).mpr h2))]
      congr 1
      refine ih (w :: seen1) (w :: seen2) (fun y hy => ?_)
      rw [List.mem_cons, List.mem_cons, h y (List.mem_cons_of_mem w hy)]

theorem dedupAux_filter (p : String → Bool) :
    ∀ (ws seen : List String),
      dedupAux seen (ws.filter p) = (dedupAux seen ws).filter p := by
  intro ws
  induction ws with
  | nil => intro seen; rfl
  | cons w ws ih =>
    intro seen
    by_cases hp : p w
    · rw [List.filter_cons, if_pos hp]
      simp only [dedupAux]
      by_cases hw : w ∈ seen
      · rw [if_pos hw, if_pos hw, ih seen]
      · rw [if_neg hw, if_neg hw, List.filter_cons, if_pos hp, ih (w :: seen)]
    · rw [List.filter_cons, if_neg hp]
      simp only [dedupAux]
      by_cases hw : w ∈ seen
      · rw [if_pos hw, ih seen]
      · rw [if_neg hw, List.filter_cons, if_neg hp, ← ih (w :: seen)]
        refine dedupAux_congr (ws.filter p) seen (w :: seen) (fun y hy => ?_)
        have hyp : p y := List.of_mem_filter hy
        have hyw : y ≠ w := fun h => hp (h ▸ hyp)
        rw [List.mem_cons]
        exact ⟨Or.inr, fun h => h.elim (fun h => absurd h hyw) id⟩

theorem fromKeys_nodup (ws : List String) : (fromKeys ws).Nodup :=
  dedupAux_nodup ws []

theorem fromKeys_sublist (ws : List String) : (fromKeys ws).Sublist ws :=
  dedupAux_sublist ws []

theorem fromKeys_pairwise_indexOf (ws : List String) :
    List.Pairwise (fun a b => ws.indexOf a < ws.indexOf b) (fromKeys ws) :=
  dedupAux_pairwise_indexOf ws []

theorem fromKeys_filter (p : String → Bool) (ws : List String) :
    fromKeys (ws.filter p) = (fromKeys ws).filter p :=
  dedupAux_filter p ws []

/-- Claim C2: for every input token sequence, `categorize_words` appends each
token to the bucket of the first category (in the fixed order Symptom,
Treatment, Personnel, BodyPart, Action, TimeWord, Severity, Location) whose
set contains it and to no other bucket; a token in no set appears in no
bucket; order within each bucket equals input order; empty input yields
all-empty buckets.  Each bucket is exactly the input filtered by "belongs to
this set and to no earlier set", which captures first-match assignment,
exclusivity, input order, and the silent drop. -/
theorem claim_C2_categorizer (ws : List String) :
    ((categorize_words ws).symptoms = ws.filter fun w => SYMPTOM_WORDS.contains w) ∧
    ((categorize_words ws).treatments = ws.filter fun w =>
      !SYMPTOM_WORDS.contains w && TREATMENT_WORDS.contains w) ∧
    ((categorize_words ws).personnel = ws.filter fun w =>
      !SYMPTOM_WORDS.contains w && !TREATMENT_WORDS.contains w &&
      MEDICAL_PERSONNEL.contains w) ∧
    ((categorize_words ws).body_parts = ws.filter fun w =>
      !SYMPTOM_WORDS.contains w && !TREATMENT_WORDS.contains w &&
      !MEDICAL_PERSONNEL.contains w && BODY_PARTS.contains w) ∧
    ((categorize_words ws).actions = ws.filter fun w =>
      !SYMPTOM_WORDS.contains w && !TREATMENT_WORDS.contains w &&
      !MEDICAL_PERSONNEL.contains w && !BODY_PARTS.contains w &&
      ACTION_WORDS.contains w) ∧
    ((categorize_words ws).time_words = ws.filter fun w =>
      !SYMPTOM_WORDS.contains w && !TREATMENT_WORDS.contains w &&
      !MEDICAL_PERSONNEL.contains w && !BODY_PARTS.contains w &&
      !ACTION_WORDS.contains w && TIME_WORDS.contains w) ∧
    ((categorize_words ws).severity = ws.filter fun w =>
      !SYMPTOM_WORDS.contains w && !TREATMENT_WORDS.contains w &&
      !MEDICAL_PERSONNEL.contains w && !BODY_PARTS.contains w &&
      !ACTION_WORDS.contains w && !TIME_WORDS.contains w &&
      SEVERITY_WORDS.contains w) ∧
    ((categorize_words ws).locations = ws.filter fun w =>
      !SYMPTOM_WORDS.contains w && !TREATMENT_WORDS.contains w &&
      !MEDICAL_PERSONNEL.contains w && !BODY_PARTS.contains w &&
      !ACTION_WORDS.contains w && !TIME_WORDS.contains w &&
      !SEVERITY_WORDS.contains w && LOCATION_WORDS.contains w) ∧
    (∀ w, w ∉ SYMPTOM_WORDS → w ∉ TREATMENT_WORDS →
      w ∉ MEDICAL_PERSONNEL → w ∉ BODY_PARTS →
      w ∉ ACTION_WORDS → w ∉ TIME_WORDS →
      w ∉ SEVERITY_WORDS → w ∉ LOCATION_WORDS →
      w ∉ (categorize_words ws).symptoms ∧ w ∉ (categorize_words ws).treatments ∧
      w ∉ (categorize_words ws).personnel ∧ w ∉ (categorize_words ws).body_parts ∧
      w ∉ (categorize_words ws).actions ∧ w ∉ (categorize_words ws).time_words ∧
      w ∉ (categorize_words ws).severity ∧ w ∉ (categorize_words ws).locations) ∧
    categorize_words [] = CategorizedWords.empty := by
  refine ⟨categorize_symptoms_eq ws, categorize_treatments_eq ws, categorize_personnel_eq ws,
    categorize_body_parts_eq ws, categorize_actions_eq ws, categorize_time_words_eq ws,
    categorize_severity_eq ws, categorize_locations_eq ws, ?_, rfl⟩
  intro w h1 h2 h3 h4 h5 h6 h7 h8
  refine ⟨?_, ?_, ?_, ?_, ?_, ?_, ?_, ?_⟩ <;>
    simp [categorize_symptoms_eq, categorize_treatments_eq, categorize_personnel_eq,
      categorize_body_parts_eq, categorize_actions_eq, categorize_time_words_eq,
      categorize_severity_eq, categorize_locations_eq, List.mem_filter,
      h1, h2, h3, h4, h5, h6, h7, h8]

theorem claim_C2_witness :
    (categorize_words ["pain", "xyz"]).symptoms = ["pain"] ∧
    "xyz" ∉ (categorize_words ["pain", "xyz"]).symptoms ∧
    "xyz" ∉ (categorize_words ["pain", "xyz"]).locations := by
  have h := claim_C2_categorizer ["pain", "xyz"]
  have hdrop := h.2.2.2.2.2.2.2.2.1 "xyz" (by decide) (by decide) (by decide) (by decide)
    (by decide) (by decide) (by decide) (by decide)
  refine ⟨?_, hdrop.1, hdrop.2.2.2.2.2.2.2⟩
  rw [h.1]
  decide

/-- Claim C1 (counterexample): on input `["pain", "head", "bad"]` the
structured composer does not return `"I have pain in my head"`, because
`"bad"` is in `SYMPTOM_WORDS` and is therefore not dropped. -/
theorem claim_C1_counterexample :
    process_structured_words id ["pain", "head", "bad"] "medical" ≠
      "I have pain in my head" := by
  decide

/-- Claim C1 (amended): on input `["pain", "head", "bad"]` the categorizer
puts both `"pain"` and `"bad"` into Symptom (`"bad"` is in `SYMPTOM_WORDS`,
so it is not dropped) and `"head"` into BodyPart, and the structured composer
returns `"I have pain, bad in my head"` via the Symptom-and-BodyPart rule. -/
theorem claim_C1_amended (correct : String → String) :
    (categorize_words ["pain", "head", "bad"]).symptoms = ["pain", "bad"] ∧
    (categorize_words ["pain", "head", "bad"]).body_parts = ["head"] ∧
    (categorize_words ["pain", "head", "bad"]).treatments = [] ∧
    (categorize_words ["pain", "head", "bad"]).personnel = [] ∧
    (categorize_words ["pain", "head", "bad"]).actions = [] ∧
    process_structured_words correct ["pain", "head", "bad"] "medical" =
      "I have pain, bad in my head" :=
  ⟨rfl, rfl, rfl, rfl, rfl, rfl⟩

/-- Claim C3: for every input sequence, the Deduplicator/Limiter output
(`unique_words`) has no duplicates, has length at most 7, and lists tokens in
the order of their first occurrence in the input (it is a sublist of the
input whose elements are strictly sorted by first-occurrence index). -/
theorem claim_C3_dedup_limiter (ws : List String) :
    (uniqueWords ws).Nodup ∧ (uniqueWords ws).length ≤ 7 ∧
    (uniqueWords ws).Sublist ws ∧
    List.Pairwise (fun a b => ws.indexOf a < ws.indexOf b) (uniqueWords ws) := by
  refine ⟨?_, ?_, ?_, ?_⟩
  · exact (List.take_sublist 7 (fromKeys ws)).nodup (fromKeys_nodup ws)
  · rw [uniqueWords, List.length_take]
    exact min_le_left _ _
  · exact (List.take_sublist 7 (fromKeys ws)).trans (fromKeys_sublist ws)
  · exact (fromKeys_pairwise_indexOf ws).sublist (List.take_sublist 7 (fromKeys ws))

/-- Claim C4 (counterexample): with 8 distinct symptom tokens, applying the
Deduplicator/Limiter (which truncates to 7) and then the categorizer yields a
Symptom bucket different from deduplicating the raw categorization's Symptom
bucket, so the claimed equality fails. -/
theorem claim_C4_counterexample :
    (categorize_words (uniqueWords
        ["pain", "headache", "fever", "nausea", "dizzy", "tired", "cough", "cold"])).symptoms ≠
      fromKeys ((categorize_words
        ["pain", "headache", "fever", "nausea", "dizzy", "tired", "cough", "cold"]).symptoms) := by
  decide

/-- Claim C4 (amended): with the deduplication step alone (no 7-element
truncation), categorizing the deduplicated sequence yields, for each of the
eight categories, exactly the first-occurrence-order deduplication of the
bucket obtained by categorizing the raw sequence. -/
theorem claim_C4_amended (ws : List String) :
    (categorize_words (fromKeys ws)).symptoms = fromKeys (categorize_words ws).symptoms ∧
    (categorize_words (fromKeys ws)).treatments = fromKeys (categorize_words ws).treatments ∧
    (categorize_words (fromKeys ws)).personnel = fromKeys (categorize_words ws).personnel ∧
    (categorize_words (fromKeys ws)).body_parts = fromKeys (categorize_words ws).body_parts ∧
    (categorize_words (fromKeys ws)).actions = fromKeys (categorize_words ws).actions ∧
    (categorize_words (fromKeys ws)).time_words = fromKeys (categorize_words ws).time_words ∧
    (categorize_words (fromKeys ws)).severity = fromKeys (categorize_words ws).severity ∧
    (categorize_words (fromKeys ws)).locations = fromKeys (categorize_words ws).locations := by
  refine ⟨?_, ?_, ?_, ?_, ?_, ?_, ?_, ?_⟩ <;>
    simp only [categorize_symptoms_eq, categorize_treatments_eq, categorize_personnel_eq,
      categorize_body_parts_eq, categorize_actions_eq, categorize_time_words_eq,
      categorize_severity_eq, categorize_locations_eq, fromKeys_filter]

/-- Claim C5: on input `["need", "pain", "medication"]` there are exactly 3
unique tokens, categorized as Action `need`, Symptom `pain`, Treatment
`medication`, and the structured composer returns
`"I need medication for pain"` (the exact-pattern rule). -/
theorem claim_C5_need_pain_medication (correct : String → String) :
    uniqueWords ["need", "pain", "medication"] = ["need", "pain", "medication"] ∧
    (categorize_words ["need", "pain", "medication"]).actions = ["need"] ∧
    (categorize_words ["need", "pain", "medication"]).symptoms = ["pain"] ∧
    (categorize_words ["need", "pain", "medication"]).treatments = ["medication"] ∧
    process_structured_words correct ["need", "pain", "medication"] "medical" =
      "I need medication for pain" :=
  ⟨rfl, rfl, rfl, rfl, rfl⟩

/-- Claim C6: on input `["need", "medication", "pharmacy"]` the Symptom
bucket is empty (so the 3-token exact-pattern guard fails), the buckets are
Action `need`, Treatment `medication`, Location `pharmacy`, and the
structured composer returns `"I need medication from pharmacy"`. -/
theorem claim_C6_need_medication_pharmacy (correct : String → String) :
    (categorize_words ["need", "medication", "pharmacy"]).symptoms = [] ∧
    (categorize_words ["need", "medication", "pharmacy"]).actions = ["need"] ∧
    (categorize_words ["need", "medication", "pharmacy"]).treatments = ["medication"] ∧
    (categorize_words ["need", "medication", "pharmacy"]).locations = ["pharmacy"] ∧
    process_structured_words correct ["need", "medication", "pharmacy"] "medical" =
      "I need medication from pharmacy" :=
  ⟨rfl, rfl, rfl, rfl, rfl⟩

/-- Claim C7: on input `["need", "doctor", "help"]` the token `"help"` is
categorized as Treatment (it appears in no earlier set and not in Personnel
or Action), the buckets are Action `need`, Personnel `doctor`, Treatment
`help`, the Symptom bucket is empty, and the structured composer returns
`"I need help"` via the Action-and-Treatment rule. -/
theorem claim_C7_need_doctor_help (correct : String → String) :
    (categorize_words ["need", "doctor", "help"]).treatments = ["help"] ∧
    (categorize_words ["need", "doctor", "help"]).personnel = ["doctor"] ∧
    (categorize_words ["need", "doctor", "help"]).actions = ["need"] ∧
    (categorize_words ["need", "doctor", "help"]).symptoms = [] ∧
    process_structured_words correct ["need", "doctor", "help"] "medical" =
      "I need help" :=
  ⟨rfl, rfl, rfl, rfl, rfl⟩

/-- Claim C8: `beautify_sentence` returns the composed medical sentence
unchanged when lowercasing and whitespace-splitting the text yields 3 or
fewer tokens, and returns the grammar-correction client's output on the
composed sentence when it yields more than 3 tokens; the gate counts the
original tokens (before deduplication). -/
theorem claim_C8_beautify_gate (correct : String → String) (text : String) :
    ((pySplit (pyLower text)).length ≤ 3 →
      beautify_sentence correct text =
        create_medical_sentence correct (pySplit (pyLower text))) ∧
    (3 < (pySplit (pyLower text)).length →
      beautify_sentence correct text =
        correct (create_medical_sentence correct (pySplit (pyLower text)))) := by
  constructor
  · intro h
    simp only [beautify_sentence]
    rw [if_pos h]
  · intro h
    simp only [beautify_sentence]
    rw [if_neg (by omega)]

theorem claim_C8_witness :
    beautify_sentence id "pain head" =
      create_medical_sentence id (pySplit (pyLower "pain head")) ∧
    beautify_sentence id "pain head bad hurt" =
      id (create_medical_sentence id (pySplit (pyLower "pain head bad hurt"))) :=
  ⟨(claim_C8_beautify_gate id "pain head").1 (by decide),
   (claim_C8_beautify_gate id "pain head bad hurt").2 (by decide)⟩

/-- Claim C9: on the empty word list the structured composer returns exactly
`"No medical signs detected"`, for every grammar-correction client (so no
client call can influence the result) and every context; the free-text
composer behaves the same on the empty token sequence. -/
theorem claim_C9_empty_input (correct : String → String) (context : String) :
    process_structured_words correct [] context = "No medical signs detected" ∧
    create_medical_sentence correct [] = "No medical signs detected" :=
  ⟨rfl, rfl⟩

/-- Claim C10: the `unique_words` field of the `POST /process-words`
response is the first-occurrence-order deduplication of the input with no
length bound: whenever the input has more than 7 distinct words, the
returned `unique_words` has more than 7 elements and differs from the
at-most-7-element sequence `process_structured_words` composes with. -/
theorem claim_C10_response_unbounded (correct : String → String)
    (words : List String) (context : String) :
    (process_words correct words context).unique_words = fromKeys words ∧
    (7 < (fromKeys words).length →
      7 < (process_words correct words context).unique_words.length ∧
      (process_words correct words context).unique_words ≠ uniqueWords words) := by
  refine ⟨rfl, fun h => ⟨h, fun heq => ?_⟩⟩
  have hlen : (uniqueWords words).length ≤ 7 := by
    rw [uniqueWords, List.length_take]
    exact min_le_left _ _
  have hfk : fromKeys words = uniqueWords words := heq
  rw [hfk] at h
  omega

theorem claim_C10_witness :
    (process_words id ["a", "b", "c", "d", "e", "f", "g", "h"] "medical").unique_words =
      fromKeys ["a", "b", "c", "d", "e", "f", "g", "h"] ∧
    7 < (process_words id ["a", "b", "c", "d", "e", "f", "g", "h"] "medical").unique_words.length ∧
    (process_words id ["a", "b", "c", "d", "e", "f", "g", "h"] "medical").unique_words ≠
      uniqueWords ["a", "b", "c", "d", "e", "f", "g", "h"] := by
  have h := claim_C10_response_unbounded id ["a", "b", "c", "d", "e", "f", "g", "h"] "medical"
  exact ⟨h.1, h.2 (by decide)⟩
